import Mathlib

/-!
A shallow embedding of the `docker-machine-driver-scaleway` Go package
(`scaleway.go`, `client_util.go`) in Lean 4, together with theorems settling
the specification claims.

Modelling conventions:
* The external Scaleway API client is modelled as an environment record whose
  fields give the results of the remote calls; every remote call a driver
  method issues is recorded in a trace of `Action`s.
* Go strings are modelled as Lean `String`s (lists of characters); the inputs
  the claims quantify over are ASCII, where Go's byte-indexed slicing agrees
  with character-indexed slicing.
* A Go runtime panic is modelled as `Option.none` in an `Option`-valued result.
* The unbounded polling loop in `Remove` is modelled with explicit fuel:
  the result `Option.none` means the loop has not exited within `fuel`
  iterations.
-/

namespace Scaleway

/-- The docker-machine `state.State` enumeration. -/
inductive MachineState
  | none
  | running
  | paused
  | saved
  | stopped
  | stopping
  | starting
  | error
deriving DecidableEq, Repr

/-- The driver record of `scaleway.go` (`Driver` plus the embedded
`drivers.BaseDriver` fields the code uses). -/
structure Driver where
  MachineName    : String := ""
  StorePath      : String := ""
  SSHUser        : String := ""
  SSHPort        : Int := 0
  IPAddress      : String := ""
  Organization   : String := ""
  Token          : String := ""
  ServerID       : String := ""
  ServerName     : String := ""
  CommercialType : String := ""
  Image          : String := ""
  Region         : String := ""
  IPID           : String := ""
  IPPersistent   : Bool := false
  EnableIPv6     : Bool := false
  Volumes        : String := ""
  Tags           : String := ""
deriving DecidableEq, Repr

/-- The `api.ConfigCreateServer` request record built by `Create`. -/
structure ConfigCreateServer where
  Name              : String
  CommercialType    : String
  ImageName         : String
  IP                : String
  EnableIPV6        : Bool
  AdditionalVolumes : String
  Env               : String
deriving DecidableEq, Repr

/-- A provider IP record (`api.ScalewayIPDefinition`): identifier and address. -/
structure ScalewayIPDef where
  ID      : String
  Address : String
deriving DecidableEq, Repr

/-- A fetched provider server record; only its status string matters here. -/
structure ScalewayServer where
  State : String
deriving DecidableEq, Repr

/-- Remote calls a driver method can issue, recorded in traces. -/
inductive Action
  | getIPS
  | newIP
  | createServer (cfg : ConfigCreateServer)
  | startServer (sid : String)
  | deleteServerForce (sid : String)
  | getServer (sid : String)
  | deleteIP (ipid : String)
  | postServerAction (sid act : String)
deriving DecidableEq, Repr

/-- `sshKeyEnvFormat` (scaleway.go:252-255):
`strings.Replace(key[:len(key)-1], " ", "_", -1)` prefixed by
`"AUTHORIZED_KEY="`.  In Go, `key[:len(key)-1]` on the empty string slices
with bound `-1` and panics; the panic is modelled as `Option.none`. -/
def sshKeyEnvFormat (key : String) : Option String :=
  if key.length = 0 then
    Option.none
  else
    some ("AUTHORIZED_KEY=" ++
      String.mk ((key.data.take (key.length - 1)).map
        (fun c => if c = ' ' then '_' else c)))

/-- Go `strings.Split` specialised to the one-character separator `","`
(its use at scaleway.go:420).  `strings.Split("", ",")` is `[""]`. -/
def splitComma : List Char → List (List Char)
  | [] => [[]]
  | c :: cs =>
    if c = ',' then [] :: splitComma cs
    else
      match splitComma cs with
      | [] => [[c]]
      | h :: t => (c :: h) :: t

/-- Go `unicode.IsSpace` restricted to the ASCII range (all characters the
driver's tag inputs contain): space, tab, newline, carriage return, vertical
tab, form feed. -/
def isSpaceGo (c : Char) : Bool :=
  c = ' ' || c = '\t' || c = '\n' || c = '\r' || c = Char.ofNat 11 || c = Char.ofNat 12

/-- Go `strings.TrimSpace`: drop leading and trailing whitespace. -/
def trimSpaceGo (l : List Char) : List Char :=
  ((l.dropWhile isSpaceGo).reverse.dropWhile isSpaceGo).reverse

/-- Go `strings.Join (·) " "`. -/
def joinSpace : List (List Char) → List Char
  | [] => []
  | [x] => x
  | x :: y :: t => x ++ ' ' :: joinSpace (y :: t)

/-- The body of the `getTags` loop (scaleway.go:420-425): trim the entry and
append it to the accumulated `tagList` when non-empty. -/
def tagStep (acc : List (List Char)) (t : List Char) : List (List Char) :=
  let t := trimSpaceGo t
  if t ≠ [] then acc ++ [t] else acc

/-- `getTags` (scaleway.go:417-428): split the tag string on commas, trim each
entry, keep the non-empty ones, join with single spaces.  The Go `for` loop
appending to `tagList` is the fold below.  (`client_util.go`'s `tags` method is
the same code on `c.driver.Tags`.) -/
def getTagsStr (tags : String) : String :=
  String.mk (joinSpace ((splitComma tags.data).foldl tagStep []))

/-- `(d *Driver) getTags()` reads the driver's `Tags` field. -/
def Driver.getTags (d : Driver) : String :=
  getTagsStr d.Tags

/-- The spec's description of tag formatting, word for word: "splits it on
commas, trims whitespace from each entry, drops empty entries, and joins the
rest with single spaces".  Compared with the source-derived `getTagsStr`. -/
def getTagsSpec (tags : String) : String :=
  String.mk (joinSpace (((splitComma tags.data).map trimSpaceGo).filter (· ≠ [])))

/-- `drivers.DriverOptions`: the flag lookup interface passed to
`SetConfigFromFlags`, one lookup function per flag type. -/
structure DriverOptions where
  str : String → String
  int : String → Int
  bool : String → Bool

/-- `SetConfigFromFlags` (scaleway.go:141-167): copy every recognized flag into
the driver, then fail if the organization or the token is empty.  The returned
driver carries the field writes that happened before the check, exactly as the
Go method mutates its receiver before returning the error. -/
def Driver.SetConfigFromFlags (d : Driver) (flags : DriverOptions) :
    Driver × Option String :=
  let d := { d with
    SSHUser        := flags.str "scaleway-ssh-user"
    SSHPort        := flags.int "scaleway-ssh-port"
    Organization   := flags.str "scaleway-organization"
    Token          := flags.str "scaleway-token"
    ServerName     := flags.str "scaleway-server-name"
    CommercialType := flags.str "scaleway-commercial-type"
    Image          := flags.str "scaleway-image"
    Region         := flags.str "scaleway-region"
    IPID           := flags.str "scaleway-reserved-ip-id"
    IPPersistent   := flags.bool "scaleway-ip-persistent"
    EnableIPv6     := flags.bool "scaleway-enable-ipv6"
    Volumes        := flags.str "scaleway-volumes"
    Tags           := flags.str "scaleway-tags" }
  if d.Organization = "" then
    (d, some "scaleway driver requires the --scaleway-organization option")
  else if d.Token = "" then
    (d, some "scaleway driver requires the --scaleway-token option")
  else
    (d, Option.none)

/-- Environment for `GetState`/`Start`/`Stop`: results of client construction
(`getClient`), of `GetServer`, and of `PostServerAction` by action name. -/
structure StateEnv where
  client : Option String
  getServer : Except String ScalewayServer
  postServerAction : String → Option String

/-- `GetState` (scaleway.go:312-335): build a client, fetch the server, map the
status string through the four-case `switch` with default `state.None`.  A
client or fetch failure yields `state.Error` with the error. -/
def Driver.GetState (d : Driver) (env : StateEnv) :
    (MachineState × Option String) × List Action :=
  match env.client with
  | some e => ((MachineState.error, some e), [])
  | Option.none =>
    match env.getServer with
    | .error e => ((MachineState.error, some e), [Action.getServer d.ServerID])
    | .ok srv =>
      ((if srv.State = "starting" then MachineState.starting
        else if srv.State = "running" then MachineState.running
        else if srv.State = "stopping" then MachineState.stopping
        else if srv.State = "stopped" then MachineState.stopped
        else MachineState.none, Option.none),
       [Action.getServer d.ServerID])

/-- `postAction` (scaleway.go:408-415): build a client, post the power action. -/
def Driver.postAction (d : Driver) (env : StateEnv) (action : String) :
    Option String × List Action :=
  match env.client with
  | some e => (some e, [])
  | Option.none =>
    (env.postServerAction action, [Action.postServerAction d.ServerID action])

/-- `Start` (scaleway.go:339-351): query state; propagate a query error; no-op
when already `Starting` or `Running`; otherwise post `"poweron"`. -/
def Driver.Start (d : Driver) (env : StateEnv) : Option String × List Action :=
  match d.GetState env with
  | ((_, some e), tr) => (some e, tr)
  | ((st, Option.none), tr) =>
    if st = MachineState.starting ∨ st = MachineState.running then
      (Option.none, tr)
    else
      let (r, tr2) := d.postAction env "poweron"
      (r, tr ++ tr2)

/-- `Stop` (scaleway.go:355-367): query state; propagate a query error; no-op
when already `Stopping` or `Stopped`; otherwise post `"poweroff"`. -/
def Driver.Stop (d : Driver) (env : StateEnv) : Option String × List Action :=
  match d.GetState env with
  | ((_, some e), tr) => (some e, tr)
  | ((st, Option.none), tr) =>
    if st = MachineState.stopping ∨ st = MachineState.stopped then
      (Option.none, tr)
    else
      let (r, tr2) := d.postAction env "poweroff"
      (r, tr ++ tr2)

/-- Recognizes the remote power actions (`PostServerAction` calls) in a trace. -/
def isPowerAction : Action → Bool
  | Action.postServerAction _ _ => true
  | _ => false

/-- Environment for `Create`: results of SSH key creation, client construction,
`GetIPS`, `NewIP`, `CreateServer` (the returned server id together with the
error, both of which the Go assignment consumes), and `StartServer`. -/
structure CreateEnv where
  sshKey : Except String String
  client : Option String
  getIPS : Except String (List ScalewayIPDef)
  newIP : Except String ScalewayIPDef
  createServer : String × Option String
  startServer : Option String

/-- `reserveIP` (scaleway.go:259-290): with a reserved-IP id, list the IPs and
take the address of the first with that id, failing when none matches; with no
id, allocate a new IP and record both its id and address. -/
def Driver.reserveIP (d : Driver) (env : CreateEnv) :
    (Driver × Option String) × List Action :=
  if d.IPID ≠ "" then
    match env.getIPS with
    | .error e => ((d, some e), [Action.getIPS])
    | .ok ips =>
      match ips.find? (fun ip => ip.ID = d.IPID) with
      | some ip => (({ d with IPAddress := ip.Address }, Option.none), [Action.getIPS])
      | Option.none =>
        ((d, some ("IP UUID " ++ d.IPID ++ " not found")), [Action.getIPS])
  else
    match env.newIP with
    | .error e => ((d, some e), [Action.newIP])
    | .ok ip =>
      (({ d with IPID := ip.ID, IPAddress := ip.Address }, Option.none),
       [Action.newIP])

/-- `Create` (scaleway.go:184-225): create the SSH key, build a client, reserve
an IP, format the key (a panic — `Option.none` — on an empty key), build the
creation request, issue `CreateServer` (whose returned id is assigned to
`ServerID` even on error, as in `d.ServerID, err = api.CreateServer(...)`),
then `StartServer`. -/
def Driver.Create (d : Driver) (env : CreateEnv) :
    Option ((Driver × Option String) × List Action) :=
  match env.sshKey with
  | .error e => some ((d, some e), [])
  | .ok publicKey =>
    match env.client with
    | some e => some ((d, some e), [])
    | Option.none =>
      match d.reserveIP env with
      | ((d1, some e), tr1) => some ((d1, some e), tr1)
      | ((d1, Option.none), tr1) =>
        match sshKeyEnvFormat publicKey with
        | Option.none => Option.none
        | some keyEnv =>
          let tags := if d1.Tags ≠ "" then keyEnv ++ " " ++ d1.getTags else keyEnv
          let cfg : ConfigCreateServer :=
            { Name := d1.ServerName
              CommercialType := d1.CommercialType
              ImageName := d1.Image
              IP := d1.IPAddress
              EnableIPV6 := d1.EnableIPv6
              AdditionalVolumes := d1.Volumes
              Env := tags }
          let d2 := { d1 with ServerID := env.createServer.1 }
          match env.createServer.2 with
          | some e => some ((d2, some e), tr1 ++ [Action.createServer cfg])
          | Option.none =>
            match env.startServer with
            | some e =>
              some ((d2, some e),
                tr1 ++ [Action.createServer cfg, Action.startServer d2.ServerID])
            | Option.none =>
              some ((d2, Option.none),
                tr1 ++ [Action.createServer cfg, Action.startServer d2.ServerID])

/-- Environment for `Remove`: results of client construction,
`DeleteServerForce`, the `GetServer` poll at each loop iteration, and
`DeleteIP`. -/
structure RemoveEnv where
  client : Option String
  deleteServerForce : Option String
  getServer : Nat → Option String
  deleteIP : Option String

/-- The `for { GetServer; if err break }` loop of `Remove` (scaleway.go:390-395)
with explicit fuel: the index of the first erroring fetch at or after `i`,
`Option.none` when no fetch among the next `fuel` errors. -/
def pollFirstErr (fetch : Nat → Option String) : Nat → Nat → Option Nat
  | 0, _ => Option.none
  | fuel + 1, i => if (fetch i).isSome then some i else pollFirstErr fetch fuel (i + 1)

/-- `Remove` (scaleway.go:380-404): a client-construction failure returns `nil`
immediately; then a forced delete (error propagated); then the unbounded
`GetServer` poll, exited by the first fetch error, which is not propagated;
finally `DeleteIP` unless `IPPersistent`.  `Option.none` means the poll has not
exited within `fuel` iterations. -/
def Driver.Remove (d : Driver) (env : RemoveEnv) (fuel : Nat) :
    Option (Option String × List Action) :=
  match env.client with
  | some _ => some (Option.none, [])
  | Option.none =>
    match env.deleteServerForce with
    | some e => some (some e, [Action.deleteServerForce d.ServerID])
    | Option.none =>
      match pollFirstErr env.getServer fuel 0 with
      | Option.none => Option.none
      | some k =>
        let tr := Action.deleteServerForce d.ServerID ::
          (List.range (k + 1)).map (fun _ => Action.getServer d.ServerID)
        if d.IPPersistent then
          some (Option.none, tr)
        else
          match env.deleteIP with
          | some e => some (some e, tr ++ [Action.deleteIP d.IPID])
          | Option.none => some (Option.none, tr ++ [Action.deleteIP d.IPID])

/-- The IP field of a `CreateServer` request action, if the action is one. -/
def createIPOf : Action → Option String
  | Action.createServer cfg => some cfg.IP
  | _ => Option.none

/-- Agreement of two driver records on every configuration field — every field
except the later-written `ServerID`, `IPID` and `IPAddress`. -/
def configEq (a b : Driver) : Prop :=
  a.MachineName = b.MachineName ∧ a.StorePath = b.StorePath ∧
  a.SSHUser = b.SSHUser ∧ a.SSHPort = b.SSHPort ∧
  a.Organization = b.Organization ∧ a.Token = b.Token ∧
  a.ServerName = b.ServerName ∧ a.CommercialType = b.CommercialType ∧
  a.Image = b.Image ∧ a.Region = b.Region ∧
  a.IPPersistent = b.IPPersistent ∧ a.EnableIPv6 = b.EnableIPv6 ∧
  a.Volumes = b.Volumes ∧ a.Tags = b.Tags

/-! ### Concrete sample values used to instantiate theorems with hypotheses -/

/-- A sample driver: a server id, no reserved IP, IP persistence unset. -/
def dSample : Driver := { ServerID := "sid" }

/-- A sample driver with a reserved-IP id configured. -/
def dReserved : Driver := { ServerID := "sid", IPID := "missing" }

/-- A sample `Create` environment whose SSH key read yields the empty string. -/
def envCreatePanic : CreateEnv :=
  { sshKey := .ok ""
    client := Option.none
    getIPS := .error "unused"
    newIP := .ok ⟨"ipid1", "1.2.3.4"⟩
    createServer := ("", Option.none)
    startServer := Option.none }

/-- A `Create` environment where everything succeeds and a fresh IP is
allocated. -/
def envCreateNew : CreateEnv :=
  { sshKey := .ok "k\n"
    client := Option.none
    getIPS := .error "unused"
    newIP := .ok ⟨"ipid1", "1.2.3.4"⟩
    createServer := ("srv1", Option.none)
    startServer := Option.none }

/-- A `Create` environment whose IP listing does not contain the reserved id. -/
def envCreateMissing : CreateEnv :=
  { envCreateNew with getIPS := .ok [⟨"other", "9.9.9.9"⟩] }

/-- A `Create` environment whose remote `CreateServer` call fails. -/
def envCreateFail : CreateEnv :=
  { envCreateNew with createServer := ("", some "boom") }

/-- The driver state `Create dSample envCreateFail` leaves behind. -/
def drAfterFail : Driver := { ServerID := "", IPID := "ipid1", IPAddress := "1.2.3.4" }

/-- The creation request `Create dSample envCreateFail` issues. -/
def cfgAfterFail : ConfigCreateServer :=
  { Name := "", CommercialType := "", ImageName := "", IP := "1.2.3.4",
    EnableIPV6 := false, AdditionalVolumes := "", Env := "AUTHORIZED_KEY=k" }

/-- A server record with a status string outside the four known ones. -/
def srvWeird : ScalewayServer := ⟨"weird"⟩

/-- A state environment that successfully fetches `srvWeird`. -/
def envStateWeird : StateEnv :=
  { client := Option.none
    getServer := .ok srvWeird
    postServerAction := fun _ => Option.none }

/-- A server record whose status is `"running"`. -/
def srvRunning : ScalewayServer := ⟨"running"⟩

/-- A state environment that successfully fetches `srvRunning`. -/
def envStateRunning : StateEnv :=
  { client := Option.none
    getServer := .ok srvRunning
    postServerAction := fun _ => Option.none }

/-- A `Remove` environment whose third server fetch errors. -/
def envRemove : RemoveEnv :=
  { client := Option.none
    deleteServerForce := Option.none
    getServer := fun n => if n = 2 then some "gone" else Option.none
    deleteIP := Option.none }

/-- A `Remove` environment whose client construction fails. -/
def envRemoveNoCred : RemoveEnv :=
  { envRemove with client := some "no credentials" }

/-! ### Theorems settling the claims -/

/-- The fold in `getTags` collects exactly the trimmed non-empty entries. -/
theorem tagFold_eq (l : List (List Char)) (acc : List (List Char)) :
    l.foldl tagStep acc = acc ++ (l.map trimSpaceGo).filter (· ≠ []) := by
  induction l generalizing acc with
  | nil => simp
  | cons x xs ih =>
    rw [List.foldl_cons, ih]
    by_cases hx : trimSpaceGo x = [] <;> simp [tagStep, hx, List.filter_cons]

/-- C7: for every public key string that ends in a newline, `sshKeyEnvFormat`
returns `"AUTHORIZED_KEY="` followed by the key with every space replaced by an
underscore and the trailing newline removed. -/
theorem sshKeyEnvFormat_trailing_newline (l : List Char) :
    sshKeyEnvFormat (String.mk (l ++ [Char.ofNat 10])) =
      some ("AUTHORIZED_KEY=" ++
        String.mk (l.map (fun c => if c = ' ' then '_' else c))) := by
  simp [sshKeyEnvFormat, String.length]

/-- C8: the tag formatter splits on commas, trims each entry, drops the empty
ones and joins the rest with single spaces (`getTagsSpec` is that description
verbatim), and on the spec's sample inputs: `"foo,bar,baz"` gives
`"foo bar baz"`, `"foo, , bar"` gives `"foo bar"`, `""` gives `""`. -/
theorem getTags_formats_tag_list :
    (∀ s : String, getTagsStr s = getTagsSpec s) ∧
    getTagsStr "foo,bar,baz" = "foo bar baz" ∧
    getTagsStr "foo, , bar" = "foo bar" ∧
    getTagsStr "" = "" := by
  refine ⟨fun s => ?_, by decide, by decide, by decide⟩
  simp [getTagsStr, getTagsSpec, tagFold_eq]

/-- C10: `sshKeyEnvFormat` panics (modelled `Option.none`) on the empty string,
unconditionally drops the final character of every non-empty input, and
`Create` reaches it with the raw key-file contents unchecked, so an empty
public-key file makes `Create` panic. -/
theorem sshKeyEnvFormat_not_total :
    sshKeyEnvFormat "" = Option.none ∧
    (∀ (l : List Char) (c : Char),
      sshKeyEnvFormat (String.mk (l ++ [c])) =
        some ("AUTHORIZED_KEY=" ++
          String.mk (l.map (fun c => if c = ' ' then '_' else c)))) ∧
    (∀ (d : Driver) (env : CreateEnv) (ip : ScalewayIPDef), d.IPID = "" →
      env.sshKey = .ok "" → env.client = Option.none → env.newIP = .ok ip →
      d.Create env = Option.none) := by
  refine ⟨by decide, fun l c => ?_, fun d env ip hid hk hc hip => ?_⟩
  · simp [sshKeyEnvFormat, String.length]
  · simp [Driver.Create, hk, hc, Driver.reserveIP, hid, hip, sshKeyEnvFormat]

/-- Witness for C10: the concrete empty-key `Create` run panics. -/
theorem sshKeyEnvFormat_not_total_witness :
    dSample.Create envCreatePanic = Option.none :=
  sshKeyEnvFormat_not_total.2.2 dSample envCreatePanic ⟨"ipid1", "1.2.3.4"⟩
    rfl rfl rfl rfl

/-- C2: `SetConfigFromFlags` fails exactly when the organization or the token
flag is empty, and copies every recognized flag verbatim into the
corresponding driver field (the copies happen before the check, so they hold
unconditionally). -/
theorem SetConfigFromFlags_spec (d : Driver) (flags : DriverOptions) :
    ((d.SetConfigFromFlags flags).2 ≠ Option.none ↔
      (flags.str "scaleway-organization" = "" ∨ flags.str "scaleway-token" = "")) ∧
    (d.SetConfigFromFlags flags).1.SSHUser = flags.str "scaleway-ssh-user" ∧
    (d.SetConfigFromFlags flags).1.SSHPort = flags.int "scaleway-ssh-port" ∧
    (d.SetConfigFromFlags flags).1.Organization = flags.str "scaleway-organization" ∧
    (d.SetConfigFromFlags flags).1.Token = flags.str "scaleway-token" ∧
    (d.SetConfigFromFlags flags).1.ServerName = flags.str "scaleway-server-name" ∧
    (d.SetConfigFromFlags flags).1.CommercialType = flags.str "scaleway-commercial-type" ∧
    (d.SetConfigFromFlags flags).1.Image = flags.str "scaleway-image" ∧
    (d.SetConfigFromFlags flags).1.Region = flags.str "scaleway-region" ∧
    (d.SetConfigFromFlags flags).1.IPID = flags.str "scaleway-reserved-ip-id" ∧
    (d.SetConfigFromFlags flags).1.IPPersistent = flags.bool "scaleway-ip-persistent" ∧
    (d.SetConfigFromFlags flags).1.EnableIPv6 = flags.bool "scaleway-enable-ipv6" ∧
    (d.SetConfigFromFlags flags).1.Volumes = flags.str "scaleway-volumes" ∧
    (d.SetConfigFromFlags flags).1.Tags = flags.str "scaleway-tags" := by
  unfold Driver.SetConfigFromFlags
  by_cases h1 : flags.str "scaleway-organization" = "" <;>
    by_cases h2 : flags.str "scaleway-token" = "" <;>
      simp [h1, h2]

/-- C1: `GetState` maps the four known status strings to the four states, any
other status string to the `None` sentinel with a `nil` error, and only a
client-construction or fetch failure yields the `Error` state (with its
error). -/
theorem GetState_total_state_map (d : Driver) (env : StateEnv)
    (srv : ScalewayServer) :
    (∀ e, env.client = some e →
      (d.GetState env).1 = (MachineState.error, some e)) ∧
    (∀ e, env.client = Option.none → env.getServer = .error e →
      (d.GetState env).1 = (MachineState.error, some e)) ∧
    (env.client = Option.none → env.getServer = .ok srv →
      ((srv.State = "starting" →
        (d.GetState env).1 = (MachineState.starting, Option.none)) ∧
       (srv.State = "running" →
        (d.GetState env).1 = (MachineState.running, Option.none)) ∧
       (srv.State = "stopping" →
        (d.GetState env).1 = (MachineState.stopping, Option.none)) ∧
       (srv.State = "stopped" →
        (d.GetState env).1 = (MachineState.stopped, Option.none)) ∧
       (srv.State ≠ "starting" → srv.State ≠ "running" →
        srv.State ≠ "stopping" → srv.State ≠ "stopped" →
        (d.GetState env).1 = (MachineState.none, Option.none)))) := by
  refine ⟨fun e he => ?_, fun e hc hg => ?_, fun hc hg => ?_⟩
  · simp [Driver.GetState, he]
  · simp [Driver.GetState, hc, hg]
  · refine ⟨fun h => ?_, fun h => ?_, fun h => ?_, fun h => ?_,
      fun h1 h2 h3 h4 => ?_⟩ <;>
      simp [Driver.GetState, hc, hg, *]

/-- Witness for C1: the unknown status `"weird"` yields `(None, nil)`. -/
theorem GetState_total_state_map_witness :
    (dSample.GetState envStateWeird).1 = (MachineState.none, Option.none) :=
  ((GetState_total_state_map dSample envStateWeird srvWeird).2.2 rfl rfl).2.2.2.2
    (by decide) (by decide) (by decide) (by decide)

/-- The trace of a `GetState` call contains no power action. -/
theorem trace_no_power (d : Driver) (env : StateEnv) :
    ((d.GetState env).2).filter isPowerAction = [] := by
  unfold Driver.GetState
  rcases hc : env.client with _ | e
  · rcases hg : env.getServer with e | srv <;> simp [isPowerAction]
  · simp [isPowerAction]

/-- A `GetState` call that returns no error had a working client. -/
theorem GetState_ok_client (d : Driver) (env : StateEnv) (st : MachineState)
    (tr : List Action) (h : d.GetState env = ((st, Option.none), tr)) :
    env.client = Option.none := by
  rcases hc : env.client with _ | e
  · rfl
  · simp [Driver.GetState, hc] at h

/-- C6: `Start` succeeds without issuing any power action when the current
state is `Starting` or `Running` and otherwise posts exactly `"poweron"`;
`Stop` succeeds without issuing any power action when the current state is
`Stopping` or `Stopped` and otherwise posts exactly `"poweroff"`; in both, a
state-query error is propagated with no power action issued. -/
theorem StartStop_power_actions (d : Driver) (env : StateEnv) :
    (∀ st tr, d.GetState env = ((st, Option.none), tr) →
      (st = MachineState.starting ∨ st = MachineState.running) →
      d.Start env = (Option.none, tr) ∧ tr.filter isPowerAction = []) ∧
    (∀ st tr, d.GetState env = ((st, Option.none), tr) →
      ¬(st = MachineState.starting ∨ st = MachineState.running) →
      (d.Start env).1 = env.postServerAction "poweron" ∧
      (d.Start env).2.filter isPowerAction =
        [Action.postServerAction d.ServerID "poweron"]) ∧
    (∀ st e tr, d.GetState env = ((st, some e), tr) →
      d.Start env = (some e, tr) ∧ tr.filter isPowerAction = []) ∧
    (∀ st tr, d.GetState env = ((st, Option.none), tr) →
      (st = MachineState.stopping ∨ st = MachineState.stopped) →
      d.Stop env = (Option.none, tr) ∧ tr.filter isPowerAction = []) ∧
    (∀ st tr, d.GetState env = ((st, Option.none), tr) →
      ¬(st = MachineState.stopping ∨ st = MachineState.stopped) →
      (d.Stop env).1 = env.postServerAction "poweroff" ∧
      (d.Stop env).2.filter isPowerAction =
        [Action.postServerAction d.ServerID "poweroff"]) ∧
    (∀ st e tr, d.GetState env = ((st, some e), tr) →
      d.Stop env = (some e, tr) ∧ tr.filter isPowerAction = []) := by
  refine ⟨fun st tr h hst => ?_, fun st tr h hst => ?_, fun st e tr h => ?_,
    fun st tr h hst => ?_, fun st tr h hst => ?_, fun st e tr h => ?_⟩ <;>
    have htr : tr.filter isPowerAction = [] := by
      have := trace_no_power d env; rw [h] at this; exact this
  · rcases hst with hst | hst <;> subst hst <;> simp [Driver.Start, h, htr]
  · have hc := GetState_ok_client d env st tr h
    simp [Driver.Start, h, hst, Driver.postAction, hc, List.filter_append, htr,
      isPowerAction]
  · simp [Driver.Start, h, htr]
  · rcases hst with hst | hst <;> subst hst <;> simp [Driver.Stop, h, htr]
  · have hc := GetState_ok_client d env st tr h
    simp [Driver.Stop, h, hst, Driver.postAction, hc, List.filter_append, htr,
      isPowerAction]
  · simp [Driver.Stop, h, htr]

/-- Witness for C6: on a running server, `Start` is a no-op, and on a server
with unknown status, `Stop` posts exactly one `"poweroff"` action. -/
theorem StartStop_power_actions_witness :
    dSample.Start envStateRunning = (Option.none, [Action.getServer "sid"]) ∧
    (dSample.Stop envStateWeird).2.filter isPowerAction =
      [Action.postServerAction "sid" "poweroff"] :=
  ⟨((StartStop_power_actions dSample envStateRunning).1
      MachineState.running [Action.getServer "sid"] (by decide) (Or.inr rfl)).1,
   ((StartStop_power_actions dSample envStateWeird).2.2.2.2.1
      MachineState.none [Action.getServer "sid"] (by decide) (by decide)).2⟩

/-- `pollFirstErr` finds the first erroring fetch when it is within fuel. -/
theorem pollFirstErr_some (fetch : Nat → Option String) :
    ∀ (fuel i k : Nat), i ≤ k → k < i + fuel →
      (∀ j, i ≤ j → j < k → fetch j = Option.none) → (fetch k).isSome →
      pollFirstErr fetch fuel i = some k := by
  intro fuel
  induction fuel with
  | zero => intro i k h1 h2 _ _; omega
  | succ n ih =>
    intro i k h1 h2 hnone hk
    by_cases hik : i = k
    · subst hik; simp [pollFirstErr, hk]
    · have hfi : fetch i = Option.none := hnone i le_rfl (by omega)
      simp [pollFirstErr, hfi]
      exact ih (i + 1) k (by omega) (by omega)
        (fun j hj1 hj2 => hnone j (by omega) hj2) hk

/-- `pollFirstErr` finds nothing when no fetch within fuel errors. -/
theorem pollFirstErr_none (fetch : Nat → Option String) :
    ∀ (fuel i : Nat), (∀ j, i ≤ j → j < i + fuel → fetch j = Option.none) →
      pollFirstErr fetch fuel i = Option.none := by
  intro fuel
  induction fuel with
  | zero => intro i _; rfl
  | succ n ih =>
    intro i hnone
    have hfi : fetch i = Option.none := hnone i le_rfl (by omega)
    simp [pollFirstErr, hfi]
    exact ih (i + 1) (fun j hj1 hj2 => hnone j (by omega) (by omega))

/-- C4: with a working client, `Remove` first issues the forced delete and
propagates its error; otherwise it polls `GetServer`, exits exactly at the
first erroring fetch (k + 1 fetches in the trace) without propagating that
error (the result depends only on `deleteIP` and `IPPersistent`), and deletes
the IP if and only if `IPPersistent` is unset; when no fetch errors within the
fuel the loop has not exited. -/
theorem Remove_delete_poll_release (d : Driver) (env : RemoveEnv)
    (fuel k : Nat) (hc : env.client = Option.none) :
    (∀ e, env.deleteServerForce = some e →
      d.Remove env fuel = some (some e, [Action.deleteServerForce d.ServerID])) ∧
    (env.deleteServerForce = Option.none → k < fuel →
      (∀ j, j < k → env.getServer j = Option.none) → (env.getServer k).isSome →
      d.Remove env fuel =
        some ((if d.IPPersistent then Option.none else env.deleteIP),
          (Action.deleteServerForce d.ServerID ::
            (List.range (k + 1)).map (fun _ => Action.getServer d.ServerID)) ++
          (if d.IPPersistent then [] else [Action.deleteIP d.IPID]))) ∧
    (env.deleteServerForce = Option.none →
      (∀ j, j < fuel → env.getServer j = Option.none) →
      d.Remove env fuel = Option.none) := by
  refine ⟨fun e he => ?_, fun hdel hk hnone hsome => ?_, fun hdel hnone => ?_⟩
  · simp [Driver.Remove, hc, he]
  · have hp := pollFirstErr_some env.getServer fuel 0 k (Nat.zero_le k) (by omega)
      (fun j _ hj => hnone j hj) hsome
    rcases hip : d.IPPersistent with _ | _ <;>
      rcases hdi : env.deleteIP with _ | e <;>
        simp [Driver.Remove, hc, hdel, hp, hip, hdi]
  · have hp := pollFirstErr_none env.getServer fuel 0
      (fun j _ hj => hnone j (by omega))
    simp [Driver.Remove, hc, hdel, hp]

/-- Witness for C4: the concrete poll exits at the third fetch and releases
the IP. -/
theorem Remove_delete_poll_release_witness :
    dSample.Remove envRemove 5 =
      some ((if dSample.IPPersistent then Option.none else envRemove.deleteIP),
        (Action.deleteServerForce dSample.ServerID ::
          (List.range 3).map (fun _ => Action.getServer dSample.ServerID)) ++
        (if dSample.IPPersistent then [] else [Action.deleteIP dSample.IPID])) :=
  (Remove_delete_poll_release dSample envRemove 5 2 rfl).2.1 rfl (by omega)
    (fun j hj => by
      have hj2 : j ≠ 2 := by omega
      simp [envRemove, hj2])
    (by decide)

/-- C9: when the client cannot be constructed, `Remove` returns success with
an empty trace: no forced delete, no poll fetch, no IP release is issued. -/
theorem Remove_client_failure (d : Driver) (env : RemoveEnv) (fuel : Nat) :
    ∀ e, env.client = some e → d.Remove env fuel = some (Option.none, []) := by
  intro e he
  simp [Driver.Remove, he]

/-- Witness for C9: the concrete failed-client removal reports success having
done nothing. -/
theorem Remove_client_failure_witness :
    dSample.Remove envRemoveNoCred 3 = some (Option.none, []) :=
  Remove_client_failure dSample envRemoveNoCred 3 "no credentials" rfl

/-- A string other than `""` has non-zero length. -/
theorem length_ne_zero_of_ne_empty (pk : String) (h : pk ≠ "") :
    ¬ pk.length = 0 := by
  intro hl
  apply h
  cases pk with
  | mk data =>
    cases data with
    | nil => rfl
    | cons c cs => simp [String.length] at hl

/-- C3: when the reserved-IP id is empty, `Create` allocates a new IP — the
resulting driver holds its id and address, the trace starts with the `NewIP`
call, and the `CreateServer` call issued right after it embeds the new
address; when a reserved-IP id is set but absent from the IP listing, `Create`
fails with the not-found error having issued only the `GetIPS` call — no
`CreateServer` call. -/
theorem Create_ip_reservation (d : Driver) (env : CreateEnv) (pk : String)
    (ip : ScalewayIPDef) (ips : List ScalewayIPDef) :
    (d.IPID = "" → env.sshKey = .ok pk → pk ≠ "" → env.client = Option.none →
      env.newIP = .ok ip →
      (d.Create env).map (fun r =>
          (r.1.1.IPID, r.1.1.IPAddress, r.2.head?, r.2.tail.head?.bind createIPOf)) =
        some (ip.ID, ip.Address, some Action.newIP, some ip.Address)) ∧
    (d.IPID ≠ "" → env.sshKey = .ok pk → env.client = Option.none →
      env.getIPS = .ok ips → (∀ q ∈ ips, q.ID ≠ d.IPID) →
      d.Create env =
        some ((d, some ("IP UUID " ++ d.IPID ++ " not found")), [Action.getIPS])) := by
  constructor
  · intro hid hsk hpk hc hip
    have hkey : sshKeyEnvFormat pk =
        some ("AUTHORIZED_KEY=" ++
          String.mk ((pk.data.take (pk.length - 1)).map
            (fun c => if c = ' ' then '_' else c))) := by
      simp [sshKeyEnvFormat, length_ne_zero_of_ne_empty pk hpk]
    rcases hcs : env.createServer with ⟨sid, cerr⟩
    rcases cerr with _ | e
    · rcases hss : env.startServer with _ | e <;>
        simp [Driver.Create, hsk, hc, Driver.reserveIP, hid, hip, hkey, hcs,
          hss, createIPOf]
    · simp [Driver.Create, hsk, hc, Driver.reserveIP, hid, hip, hkey, hcs,
        createIPOf]
  · intro hid hsk hc hg hne
    have hfind : ips.find? (fun q => q.ID = d.IPID) = Option.none := by
      rw [List.find?_eq_none]
      intro q hq
      simp [hne q hq]
    simp [Driver.Create, hsk, hc, Driver.reserveIP, hid, hg, hfind]

/-- Witness for C3: a concrete fresh-IP creation and a concrete unresolvable
reserved-IP failure. -/
theorem Create_ip_reservation_witness :
    (dSample.Create envCreateNew).map (fun r =>
        (r.1.1.IPID, r.1.1.IPAddress, r.2.head?, r.2.tail.head?.bind createIPOf)) =
      some ("ipid1", "1.2.3.4", some Action.newIP, some "1.2.3.4") ∧
    dReserved.Create envCreateMissing =
      some ((dReserved, some ("IP UUID " ++ dReserved.IPID ++ " not found")),
        [Action.getIPS]) :=
  ⟨(Create_ip_reservation dSample envCreateNew "k\n" ⟨"ipid1", "1.2.3.4"⟩ []).1
      rfl rfl (by decide) rfl rfl,
   (Create_ip_reservation dReserved envCreateMissing "k\n" ⟨"", ""⟩
      [⟨"other", "9.9.9.9"⟩]).2 (by decide) rfl rfl rfl (by decide)⟩

/-- Counterexample to C5 as stated: in a run whose remote `CreateServer` call
fails (error `"boom"`), the returned driver nevertheless has `IPID` and
`IPAddress` freshly written (by `reserveIP`, before the creation call) and
`ServerID` overwritten with the call's returned value — so these fields are
not "written once, after the remote creation succeeds". -/
theorem Create_writes_without_success :
    (dSample.Create envCreateFail).map
        (fun r => (r.1.2, r.1.1.IPID, r.1.1.IPAddress, r.1.1.ServerID)) =
      some (some "boom", "ipid1", "1.2.3.4", "") ∧
    dSample.IPID = "" ∧ dSample.IPAddress = "" ∧ dSample.ServerID = "sid" := by
  decide

/-- `reserveIP` preserves every configuration field and `ServerID`, and never
overwrites a configured reserved-IP id. -/
theorem reserveIP_frame (d : Driver) (env : CreateEnv) :
    configEq (d.reserveIP env).1.1 d ∧
    (d.reserveIP env).1.1.ServerID = d.ServerID ∧
    (d.IPID ≠ "" → (d.reserveIP env).1.1.IPID = d.IPID) := by
  by_cases hid : d.IPID = ""
  · rcases hnew : env.newIP with e | ip <;>
      simp [Driver.reserveIP, hid, hnew, configEq]
  · rcases hg : env.getIPS with e | ips
    · simp [Driver.reserveIP, hid, hg, configEq]
    · rcases hf : ips.find? (fun ip => ip.ID = d.IPID) with _ | ip <;>
        simp [Driver.reserveIP, hid, hg, hf, configEq]

/-- `configEq` is reflexive. -/
theorem configEq_refl (a : Driver) : configEq a a :=
  ⟨rfl, rfl, rfl, rfl, rfl, rfl, rfl, rfl, rfl, rfl, rfl, rfl, rfl, rfl⟩

/-- C5 (amended): every configuration field is written only by
`SetConfigFromFlags` — `Create` (the only other operation that writes driver
fields; `GetState`, `Start`, `Stop`, `Restart` and `Remove` write none)
preserves all of them, and writes only `ServerID`, `IPID` and `IPAddress`:
`IPID`/`IPAddress` during IP reservation before the creation call (and a
configured `IPID` is never overwritten), `ServerID` from the creation call's
returned value regardless of its success. -/
theorem Create_frame (d : Driver) (env : CreateEnv) (dr : Driver)
    (err : Option String) (tr : List Action)
    (h : d.Create env = some ((dr, err), tr)) :
    configEq dr d ∧ (d.IPID ≠ "" → dr.IPID = d.IPID) := by
  have hres := reserveIP_frame d env
  rcases hsk : env.sshKey with e | pk <;> simp [Driver.Create, hsk] at h
  · obtain ⟨⟨h1, _⟩, _⟩ := h
    subst h1
    exact ⟨configEq_refl d, fun _ => rfl⟩
  rcases hc : env.client with _ | e
  · rcases hr : d.reserveIP env with ⟨⟨d1, rerr⟩, tr1⟩
    rw [hr] at hres
    rcases rerr with _ | e
    · rcases hkey : sshKeyEnvFormat pk with _ | k <;>
        simp [hc, hr, hkey] at h
      rcases hcs : env.createServer with ⟨sid, cerr⟩
      rw [hcs] at h
      rcases cerr with _ | e
      · rcases hss : env.startServer with _ | e <;> simp [hss] at h <;>
        · obtain ⟨⟨h1, _⟩, _⟩ := h
          subst h1
          exact ⟨hres.1, fun hne => hres.2.2 hne⟩
      · simp at h
        obtain ⟨⟨h1, _⟩, _⟩ := h
        subst h1
        exact ⟨hres.1, fun hne => hres.2.2 hne⟩
    · simp [hc, hr] at h
      obtain ⟨⟨h1, _⟩, _⟩ := h
      subst h1
      exact ⟨hres.1, fun hne => hres.2.2 hne⟩
  · simp [hc] at h
    obtain ⟨⟨h1, _⟩, _⟩ := h
    subst h1
    exact ⟨configEq_refl d, fun _ => rfl⟩

/-- Witness for C5 (amended): the concrete failed creation still agrees with
the original driver on every configuration field. -/
theorem Create_frame_witness : configEq drAfterFail dSample :=
  (Create_frame dSample envCreateFail drAfterFail (some "boom")
    [Action.newIP, Action.createServer cfgAfterFail] (by decide)).1

end Scaleway
